import Mathlib

/-!
Shallow embedding of the DeskHog asynchronous network engine:
`AsyncHTTPClient` (transport state machine, url parsing, retry/backoff),
`AsyncNetworkManager.calculateRetryDelay` (orchestrator backoff), and
`PostHogClient` (insight fetch & cache engine).  Every definition is a
direct translation of the corresponding C++ source; `millis()` and the
readiness/WiFi collaborators are passed in as explicit parameters.
-/

namespace DeskHog

/-! ### Arduino `String` primitives (over `List Char`) -/

/-- `isspace` as used by Arduino `String::trim` / `atol`. -/
def isSpaceChar (c : Char) : Bool :=
  c = ' ' || c = '\t' || c = '\n' || c = '\x0b' || c = '\x0c' || c = '\r'

/-- Position of the first occurrence of `pat` in `hay` (leftmost match). -/
def firstMatchPos (pat : List Char) : List Char → Option Nat
  | [] => if pat.isEmpty then some 0 else none
  | c :: t =>
      if pat.isPrefixOf (c :: t) then some 0
      else (firstMatchPos pat t).map (· + 1)

/-- Arduino `String::indexOf(pat, fromIndex)`: `-1` when absent or when
`fromIndex` is at or past the end of the string. -/
def strIndexOfFrom (s pat : String) (fromIdx : Nat) : Int :=
  if fromIdx ≥ s.toList.length then -1
  else
    match firstMatchPos pat.toList (s.toList.drop fromIdx) with
    | some i => ((i + fromIdx : Nat) : Int)
    | none => -1

/-- Arduino `String::indexOf(pat)`. -/
def strIndexOf (s pat : String) : Int := strIndexOfFrom s pat 0

/-- Arduino `String::indexOf(ch, fromIndex)` for a single character. -/
def charIndexOfFrom (s : String) (c : Char) (fromIdx : Nat) : Int :=
  strIndexOfFrom s (String.mk [c]) fromIdx

/-- Arduino `String::substring(left, right)`: swaps when `left > right`,
clamps to the length, returns the character range `[left, right)`. -/
def substrArd (s : String) (left right : Nat) : String :=
  String.mk ((s.toList.take (max left right)).drop (min left right))

/-- Arduino `String::substring(from)` (to end of string). -/
def dropArd (s : String) (n : Nat) : String := String.mk (s.toList.drop n)

/-- Arduino `String::startsWith`. -/
def startsWithArd (s p : String) : Bool := p.toList.isPrefixOf s.toList

/-- Arduino `String::trim` (strips `isspace` characters from both ends). -/
def trimArd (s : String) : String :=
  String.mk (((s.toList.dropWhile isSpaceChar).reverse.dropWhile isSpaceChar).reverse)

/-- Leading decimal digits folded to a `Nat` (`atol` digit loop). -/
def leadingNat (cs : List Char) : Nat :=
  (cs.takeWhile Char.isDigit).foldl (fun a c => a * 10 + (c.toNat - 48)) 0

/-- Arduino `String::toInt` (`atol`): skip whitespace, optional sign, then
leading digits; `0` when no digits.  (The 32-bit `long` overflow region is
never reached by the inputs in this code base.) -/
def ardToInt (s : String) : Int :=
  match s.toList.dropWhile isSpaceChar with
  | '-' :: rest => -(Int.ofNat (leadingNat rest))
  | '+' :: rest => Int.ofNat (leadingNat rest)
  | cs => Int.ofNat (leadingNat cs)

/-- Substring containment the way the C++ writes it: `indexOf(pat) >= 0`. -/
def strContains (s pat : String) : Bool := strIndexOf s pat ≥ 0

/-- Insert-or-assign on an association list (`std::map::operator[]=`;
ordering of the keys is irrelevant to every claim below). -/
def mapSet {α : Type} (m : List (String × α)) (k : String) (v : α) : List (String × α) :=
  match m with
  | [] => [(k, v)]
  | (k', v') :: t => if k' = k then (k, v) :: t else (k', v') :: mapSet t k v

/-! ### AsyncHTTPClient (src/src/AsyncHTTPClient.h, src/unnamed/part_001) -/

/-- HTTP request methods (AsyncHTTPClient.h). -/
inductive HttpMethod
  | GET
  | POST
  | PUT
  | DELETE
deriving DecidableEq, Repr

/-- Internal request state (AsyncHTTPClient.h). -/
inductive RequestState
  | IDLE
  | DNS_LOOKUP
  | CONNECTING
  | SENDING_REQUEST
  | RECEIVING_HEADERS
  | RECEIVING_BODY
  | COMPLETE
  | ERROR
  | TIMEOUT
deriving DecidableEq, Repr

/-- `AsyncHTTPClient::RequestConfig`.  The success/error/progress callbacks
are closures; for the insight requests built by `PostHogClient` each closure
captures exactly the insight id, recorded here as `callbackInsightId`. -/
structure RequestConfig where
  url : String
  method : HttpMethod := .GET
  headers : String := ""
  body : String := ""
  timeout : Nat := 30000
  maxRetries : Nat := 3
  useSSL : Bool := true
  callbackInsightId : Option String := none
deriving DecidableEq, Repr

/-- `AsyncHTTPClient::ActiveRequest` (the Transport Session record). -/
structure ActiveRequest where
  requestId : String
  config : RequestConfig
  state : RequestState := .IDLE
  host : String := ""
  port : Nat := 443
  path : String := ""
  startTime : Nat := 0
  lastActivity : Nat := 0
  retryCount : Nat := 0
  responseHeaders : String := ""
  responseBody : String := ""
  statusCode : Int := 0
  contentLength : Nat := 0
  receivedBytes : Nat := 0
  headersParsed : Bool := false
deriving DecidableEq, Repr

/-- The client-level bookkeeping: `_activeRequests` and `_nextRequestId`. -/
structure ClientState where
  activeRequests : List (String × ActiveRequest) := []
  nextRequestId : Nat := 1
deriving DecidableEq, Repr

/-- `AsyncHTTPClient::generateRequestId`. -/
def generateRequestId (n : Nat) : String := "req_" ++ toString n

/-- The host/port/path decomposition block that `parseUrl` repeats inline
for each scheme (part_001 lines 87-104 and 109-126): split at the first
`/`, then extract an optional `:port` (with `toInt`, cast to `uint16_t`). -/
def parseHostPortPath (remainder : String) (defaultPort : Nat) : String × Nat × String :=
  let slashIndex := strIndexOf remainder "/"
  let hostPath :=
    if slashIndex = -1 then (remainder, "/")
    else (substrArd remainder 0 slashIndex.toNat, dropArd remainder slashIndex.toNat)
  let colonIndex := strIndexOf hostPath.1 ":"
  if colonIndex = -1 then (hostPath.1, defaultPort, hostPath.2)
  else
    (substrArd hostPath.1 0 colonIndex.toNat,
     ((ardToInt (dropArd hostPath.1 (colonIndex.toNat + 1))).emod 65536).toNat,
     hostPath.2)

/-- `AsyncHTTPClient::parseUrl` (part_001 lines 82-131): `none` exactly when
the URL starts with neither `https://` nor `http://`. -/
def parseUrl (url : String) : Option (String × Nat × String × Bool) :=
  if startsWithArd url "https://" then
    let r := parseHostPortPath (dropArd url 8) 443
    some (r.1, r.2.1, r.2.2, true)
  else if startsWithArd url "http://" then
    let r := parseHostPortPath (dropArd url 7) 80
    some (r.1, r.2.1, r.2.2, false)
  else none

/-- `AsyncHTTPClient::request` (part_001 lines 12-33).  Generates a token,
parses the URL (failing fast with an empty token and no registration), else
registers the session in `IDLE`.  No network I/O happens here; the session
is only advanced later by `process()`. `now` models `millis()`. -/
def clientRequest (now : Nat) (st : ClientState) (cfg : RequestConfig) : String × ClientState :=
  let requestId := generateRequestId st.nextRequestId
  let st1 : ClientState := { st with nextRequestId := st.nextRequestId + 1 }
  match parseUrl cfg.url with
  | none => ("", st1)
  | some (host, port, path, ssl) =>
      let req : ActiveRequest :=
        { requestId := requestId
          config := { cfg with useSSL := ssl }
          state := .IDLE
          host := host, port := port, path := path
          startTime := now, lastActivity := now }
      (requestId, { st1 with activeRequests := mapSet st1.activeRequests requestId req })

/-- Outcome of `AsyncHTTPClient::retryRequest`: either the attempt is retried
(after blocking for `delayMs`, before the request becomes runnable again) or
it is failed terminally through `failRequest`, which fires the error
callback exactly once. -/
inductive RetryOutcome
  | retried (delayMs : Nat) (req : ActiveRequest)
  | failed (error : String) (req : ActiveRequest)
deriving DecidableEq, Repr

/-- The request record held in a `RetryOutcome`. -/
def RetryOutcome.request : RetryOutcome → ActiveRequest
  | .retried _ r => r
  | .failed _ r => r

/-- `AsyncHTTPClient::retryRequest` (part_001 lines 408-442): increment the
retry counter; while it has not passed `maxRetries`, reset the session (the
socket is torn down, buffers cleared) and honour the exponential backoff
delay `1000 * 2^(retryCount-1)` capped at 8000 ms before the attempt is
re-queued; otherwise fail terminally via `failRequest`. -/
def retryRequest (now : Nat) (req : ActiveRequest) (error : String) : RetryOutcome :=
  let r : ActiveRequest := { req with retryCount := req.retryCount + 1 }
  if r.retryCount ≤ r.config.maxRetries then
    .retried (min (1000 * 2 ^ (r.retryCount - 1)) 8000)
      { r with
          state := .IDLE
          responseHeaders := "", responseBody := ""
          statusCode := 0, contentLength := 0, receivedBytes := 0
          headersParsed := false
          startTime := now, lastActivity := now }
  else
    .failed ("Max retries exceeded: " ++ error) { r with state := .ERROR }

/-- Driver for an always-failing request: each step is one attempt that
fails and is handed to `retryRequest`; returns (number of attempts, number
of terminal error callbacks).  `fuel` is a structural bound only. -/
def alwaysFailRun : Nat → Nat → ActiveRequest → String → Nat × Nat
  | 0, _, _, _ => (0, 0)
  | fuel + 1, now, req, err =>
      match retryRequest now req err with
      | .retried _ r => let p := alwaysFailRun fuel now r err; (p.1 + 1, p.2)
      | .failed _ _ => (1, 1)

/-- `AsyncNetworkManager::RETRY_BASE_DELAY`. -/
def RETRY_BASE_DELAY : Nat := 1000

/-- `AsyncNetworkManager::MAX_RETRY_DELAY`. -/
def MAX_RETRY_DELAY : Nat := 8000

/-- `AsyncNetworkManager::calculateRetryDelay` (AsyncNetworkManager.cpp
lines 172-176): `RETRY_BASE_DELAY << (retryCount - 1)`, capped. -/
def calculateRetryDelay (retryCount : Nat) : Nat :=
  min (RETRY_BASE_DELAY * 2 ^ (retryCount - 1)) MAX_RETRY_DELAY

/-- `AsyncHTTPClient::parseResponseHeaders` (part_001 lines 348-374): parse
the numeric status code out of the status line and the `Content-Length`
header value (absent, unparseable, and zero all leave the field `0`). -/
def parseResponseHeaders (req : ActiveRequest) (headers : String) : ActiveRequest :=
  let req1 :=
    let firstLineEnd := strIndexOf headers "\r\n"
    if firstLineEnd > 0 then
      let statusLine := substrArd headers 0 firstLineEnd.toNat
      let firstSpace := charIndexOfFrom statusLine ' ' 0
      let secondSpace := charIndexOfFrom statusLine ' ' (firstSpace + 1).toNat
      if firstSpace > 0 ∧ secondSpace > firstSpace then
        { req with statusCode := ardToInt (substrArd statusLine (firstSpace + 1).toNat secondSpace.toNat) }
      else req
    else req
  let clIdx := strIndexOf headers "Content-Length:"
  if clIdx ≥ 0 then
    let lineEnd := strIndexOfFrom headers "\r\n" clIdx.toNat
    if lineEnd > clIdx then
      { req1 with
          contentLength :=
            ((ardToInt (trimArd (substrArd headers (clIdx.toNat + 15) lineEnd.toNat))).emod (2 ^ 32)).toNat }
    else req1
  else req1

/-- The body-completion decision of `receiveResponse` (part_001 lines
331-340): with a positive `contentLength` completion is by byte count,
otherwise completion is by the peer having closed the connection. -/
def bodyComplete (contentLength receivedBytes : Nat) (connectedAfter : Bool) : Bool :=
  if contentLength > 0 then receivedBytes ≥ contentLength else !connectedAfter

/-- Outcome of one `receiveResponse` poll. -/
inductive RecvOutcome
  | noEvent
  | completedOk
  | attemptFailed (error : String)
deriving DecidableEq, Repr

/-- The buffer-accumulation block of `receiveResponse` (part_001 lines
297-328): accumulate header bytes until the `\r\n\r\n` delimiter, then
parse headers and move any remaining bytes into the body; in body state
append to the body and count the bytes. -/
def receiveAccumulate (req : ActiveRequest) (newData : String) : ActiveRequest :=
  if req.state = .RECEIVING_HEADERS then
    let acc := req.responseHeaders ++ newData
    let headerEndIndex := strIndexOf acc "\r\n\r\n"
    if headerEndIndex ≠ -1 then
      let hdrs := substrArd acc 0 (headerEndIndex.toNat + 4)
      let remainingData := dropArd acc (headerEndIndex.toNat + 4)
      let req1 := parseResponseHeaders { req with responseHeaders := acc } hdrs
      let req2 := { req1 with responseHeaders := hdrs, state := RequestState.RECEIVING_BODY, headersParsed := true }
      if remainingData.length ≠ 0 then
        { req2 with
            responseBody := req2.responseBody ++ remainingData
            receivedBytes := req2.receivedBytes + remainingData.length }
      else req2
    else { req with responseHeaders := acc }
  else if req.state = .RECEIVING_BODY then
    { req with
        responseBody := req.responseBody ++ newData
        receivedBytes := req.receivedBytes + newData.length }
  else req

/-- `AsyncHTTPClient::receiveResponse` (part_001 lines 275-346).
`connectedBefore` is the `client->connected()` value at entry,
`connectedAfter` the value re-queried by the completion check after the
available bytes (`newData`) were drained.  A disconnect before the headers
were parsed goes to `retryRequest` (an attempt failure); a disconnect after
headers is a normal close-terminated completion.  (The progress-callback
dispatch is omitted: no claim concerns it.) -/
def receiveResponse (req : ActiveRequest) (connectedBefore : Bool) (newData : String)
    (connectedAfter : Bool) : ActiveRequest × RecvOutcome :=
  if !connectedBefore then
    if !req.headersParsed then (req, .attemptFailed "Client disconnected during receive")
    else (req, .completedOk)
  else if newData.length = 0 then (req, .noEvent)
  else
    let r := receiveAccumulate req newData
    if r.headersParsed then
      if bodyComplete r.contentLength r.receivedBytes connectedAfter then (r, .completedOk)
      else (r, .noEvent)
    else (r, .noEvent)

/-! ### PostHogClient (src/unnamed/part_000, src/src/posthog/PostHogClient.cpp) -/

/-- Notification kinds published on the `EventQueue` (EventQueue.h boundary;
only the members used by `PostHogClient` are modelled). -/
inductive EventType
  | INSIGHT_DATA_RECEIVED
  | INSIGHT_DATA_ERROR
  | INSIGHT_NETWORK_STATE_CHANGED
  | INSIGHT_FORCE_REFRESH
  | UI_UPDATE_REQUESTED
deriving DecidableEq, Repr

/-- A published notification: kind, insight id and payload string. -/
structure Event where
  type : EventType
  insightId : String
  payload : String
deriving DecidableEq, Repr

/-- An externally visible action of the insight engine: either publishing a
notification on the event queue or calling `makeAsyncInsightRequest`
(issuing a background fetch) for an id with a given `forceRefresh` flag. -/
inductive PHAction
  | publishEvent (e : Event)
  | asyncFetch (insightId : String) (forceRefresh : Bool)
deriving DecidableEq, Repr

/-- Modelled from the spec: `ConfigManager::NO_TEAM_ID` — the sentinel team
id meaning "no team configured" (ConfigManager is not part of src/; only
the sentinel's existence matters, never its value). -/
def NO_TEAM_ID : Int := -1

/-- The configuration boundary: account/team id, API key and region host
fragment, immutable for the duration of a fetch (spec section 6). -/
structure ConfigState where
  teamId : Int
  apiKey : String
  region : String
deriving DecidableEq, Repr

/-- The readiness boundary: `SystemController::isSystemFullyReady()` and
`WiFi.status() == WL_CONNECTED`, polled before every fetch decision. -/
structure SysEnv where
  systemFullyReady : Bool
  wifiConnected : Bool
deriving DecidableEq, Repr

/-- `PostHogClient::isReady` (PostHogClient.cpp lines 49-53). -/
def isReady (cfg : ConfigState) (env : SysEnv) : Bool :=
  env.systemFullyReady && (cfg.teamId != NO_TEAM_ID) && (cfg.apiKey.length > 0)

/-- `PostHogClient`'s cache/tracking state: the known-insights set, the
insight payload cache and its timestamps. -/
structure PHState where
  requestedInsights : List String := []
  insightCache : List (String × String) := []
  cacheTimestamps : List (String × Nat) := []
deriving DecidableEq, Repr

/-- `std::set::insert` on the known-insights set (kept as a duplicate-free
list; ordering is irrelevant to every claim below). -/
def setInsert (l : List String) (x : String) : List String :=
  if l.contains x then l else l ++ [x]

/-- `CACHE_VALIDITY_MS` (PostHogClient.cpp line 397): 5 minutes. -/
def CACHE_VALIDITY_MS : Nat := 5 * 60 * 1000

/-- `PostHogClient::isCacheValid` (lines 387-399): `millis() - timestamp`
in 32-bit unsigned arithmetic, compared against the staleness window. -/
def isCacheValid (st : PHState) (now : Nat) (insightId : String) : Bool :=
  match st.cacheTimestamps.lookup insightId with
  | none => false
  | some ts => (2 ^ 32 + now - ts) % 2 ^ 32 < CACHE_VALIDITY_MS

/-- `PostHogClient::getCachedData` (lines 374-380): the cached payload when
present and still inside the staleness window, else the empty string. -/
def getCachedData (st : PHState) (now : Nat) (insightId : String) : String :=
  match st.insightCache.lookup insightId with
  | some v => if isCacheValid st now insightId then v else ""
  | none => ""

/-- `PostHogClient::cacheInsightData` (lines 382-385): store the payload and
stamp it with the current `millis()`. -/
def cacheInsightData (st : PHState) (now : Nat) (insightId data : String) : PHState :=
  { st with
      insightCache := mapSet st.insightCache insightId data
      cacheTimestamps := mapSet st.cacheTimestamps insightId now }

/-- `PostHogClient::publishInsightDataEvent` (lines 292-307): a zero-length
response is dropped silently (no cache write, no event); otherwise the
response is cached (refreshing the timestamp) and published as an
`INSIGHT_DATA_RECEIVED` notification. -/
def publishInsightDataEvent (st : PHState) (now : Nat) (insightId response : String) :
    PHState × List Event :=
  if response.length = 0 then (st, [])
  else
    (cacheInsightData st now insightId response,
     [⟨.INSIGHT_DATA_RECEIVED, insightId, response⟩])

/-- `PostHogClient::handleInsightError` (lines 364-372): publish the error
payload and a state-changed("error") notification; no cache field is
touched. -/
def handleInsightError (st : PHState) (insightId error : String) (statusCode : Int) :
    PHState × List Event :=
  (st,
   [⟨.INSIGHT_DATA_ERROR, insightId, error⟩,
    ⟨.INSIGHT_NETWORK_STATE_CHANGED, insightId, "error"⟩])

/-- The empty-result markers `handleInsightSuccess` searches for
(PostHogClient.cpp line 350).  The C++ string literals are
`"\\\"result\\\":null"` and `"\\\"result\\\":[]"`, i.e. they begin with a
literal backslash character before each quote. -/
def asyncEmptyResultMarkers (data : String) : Bool :=
  strContains data "\\\"result\\\":null" || strContains data "\\\"result\\\":[]"

/-- The empty-result markers the legacy blocking path `fetchInsight`
searches for (PostHogClient.cpp lines 235-236): `"\"result\":null"` and
`"\"result\":[]"`, i.e. plain JSON with no backslashes. -/
def syncEmptyResultMarkers (data : String) : Bool :=
  strContains data "\"result\":null" || strContains data "\"result\":[]"

/-- `PostHogClient::handleInsightSuccess` (lines 343-362): on HTTP 200,
escalate to a force-refresh fetch when the (escaped) empty-result markers
match, else publish the data and a state-changed("success") notification;
non-200 codes go to `handleInsightError`. -/
def handleInsightSuccess (st : PHState) (now : Nat) (insightId data : String)
    (statusCode : Int) : PHState × List PHAction :=
  if statusCode = 200 then
    if asyncEmptyResultMarkers data then
      (st, [.asyncFetch insightId true])
    else
      let r := publishInsightDataEvent st now insightId data
      (r.1, r.2.map .publishEvent ++
        [.publishEvent ⟨.INSIGHT_NETWORK_STATE_CHANGED, insightId, "success"⟩])
  else
    let r := handleInsightError st insightId ("HTTP " ++ toString statusCode) statusCode
    (r.1, r.2.map .publishEvent)

/-- `PostHogClient::requestInsightData` (lines 29-47): register the id,
then either serve valid cached data immediately followed by a background
cache-preferring fetch, or emit a loading notification and fetch with the
caller's `forceRefresh` flag. -/
def requestInsightData (st : PHState) (now : Nat) (insightId : String) (forceRefresh : Bool) :
    PHState × List PHAction :=
  let st1 : PHState := { st with requestedInsights := setInsert st.requestedInsights insightId }
  let cachedData := getCachedData st1 now insightId
  if !(cachedData.length = 0 : Bool) && !forceRefresh then
    let r := publishInsightDataEvent st1 now insightId cachedData
    (r.1, r.2.map .publishEvent ++ [.asyncFetch insightId false])
  else
    (st1, [.publishEvent ⟨.INSIGHT_NETWORK_STATE_CHANGED, insightId, "loading"⟩,
           .asyncFetch insightId forceRefresh])

/-- The `?refresh=` query value (PostHogClient.cpp lines 315, 176, 208,
251): `blocking` forces a recompute, `force_cache` prefers the server-side
cache. -/
def refreshMode (forceRefresh : Bool) : String :=
  if forceRefresh then "blocking" else "force_cache"

/-- `PostHogClient::buildBaseUrl` (lines 25-27). -/
def buildBaseUrl (cfg : ConfigState) : String :=
  "https://" ++ cfg.region ++ ".posthog.com/api/projects/"

/-- `PostHogClient::buildInsightUrl` (lines 151-161). -/
def buildInsightUrl (cfg : ConfigState) (insightId mode : String) : String :=
  buildBaseUrl cfg ++ toString cfg.teamId ++ "/insights/?refresh=" ++ mode ++
    "&short_id=" ++ insightId ++ "&personal_api_key=" ++ cfg.apiKey

/-- `PostHogClient::makeAsyncInsightRequest` (lines 309-341): bail out with
`handleInsightError` when not ready or WiFi is down; otherwise build the
insight URL, submit it to the `AsyncHTTPClient` with the success/error
callbacks capturing the insight id, and report an error if no token came
back.  Returns the (unchanged-except-via-error-path) PostHog state, the
updated HTTP client state and the published events. -/
def makeAsyncInsightRequest (cfg : ConfigState) (env : SysEnv) (now : Nat)
    (st : PHState) (client : ClientState) (insightId : String) (forceRefresh : Bool) :
    PHState × ClientState × List Event :=
  if !(isReady cfg env) || !env.wifiConnected then
    let r := handleInsightError st insightId "System not ready or WiFi disconnected" 0
    (r.1, client, r.2)
  else
    let url := buildInsightUrl cfg insightId (refreshMode forceRefresh)
    let rcfg : RequestConfig :=
      { url := url, method := .GET, timeout := 30000, maxRetries := 3
        callbackInsightId := some insightId }
    let sub := clientRequest now client rcfg
    if sub.1.length = 0 then
      let r := handleInsightError st insightId "Failed to queue HTTP request" 0
      (r.1, sub.2, r.2)
    else (st, sub.2, [])

/-- The empty PostHog cache state. -/
def phEx : PHState := {}

/-- A fresh HTTP client state (no sessions, counter at 1). -/
def clientEx : ClientState := {}

/-! ### Concrete fixtures used by counterexamples and witnesses -/

/-- A plain JSON empty-result body as the PostHog API actually sends it:
the characters `{"result":null}` with no backslashes. -/
def jsonNullBody : String := "\x7b\"result\":null\x7d"

/-- A configured account: team 1, non-empty API key, region `us`. -/
def cfgEx : ConfigState := ⟨1, "k", "us"⟩

/-- Fully ready environment. -/
def envReady : SysEnv := ⟨true, true⟩

/-- System not fully ready (WiFi up). -/
def envNotReady : SysEnv := ⟨false, true⟩

/-- A state holding a cache entry for `abc123` stamped at time 0. -/
def stCacheEx : PHState :=
  { insightCache := [("abc123", "cached-payload")]
    cacheTimestamps := [("abc123", 0)] }

/-- A connecting session with no retries yet (maxRetries 3). -/
def reqRetry0 : ActiveRequest :=
  { requestId := "req_1", config := { url := "https://a/b" }
    state := .CONNECTING, startTime := 17, lastActivity := 17 }

/-- `reqRetry0` as reset by `retryRequest` at time 99. -/
def reqRetry0After : ActiveRequest :=
  { requestId := "req_1", config := { url := "https://a/b" }
    state := .IDLE, retryCount := 1, startTime := 99, lastActivity := 99 }

/-- A session whose response headers carry `Content-Length: 0` with one
byte of the `\r\n\r\n` delimiter still missing. -/
def clZeroSession : ActiveRequest :=
  { requestId := "req_3", config := { url := "https://a/b" }
    state := .RECEIVING_HEADERS
    responseHeaders := "HTTP/1.1 200 OK\r\nContent-Length: 0\r\n\r" }

/-- A session with only part of the status line received. -/
def preHdrSession : ActiveRequest :=
  { requestId := "req_4", config := { url := "https://a/b" }
    state := .RECEIVING_HEADERS, responseHeaders := "HTTP/1.1 2" }

/-! ### Helper lemmas -/

/-- A list is a `isPrefixOf` of itself followed by anything. -/
theorem isPrefixOf_append_self (l t : List Char) : l.isPrefixOf (l ++ t) = true := by
  induction l with
  | nil => simp [List.isPrefixOf]
  | cons c cs ih => simp [List.isPrefixOf, ih]

/-- A string has length zero exactly when it is the empty string. -/
theorem string_length_eq_zero (s : String) : s.length = 0 ↔ s = "" := by
  constructor
  · intro h
    apply String.ext
    exact List.length_eq_zero.mp (show s.data.length = 0 from h)
  · intro h
    subst h
    rfl

/-- Looking up the key just written by `mapSet` returns the new value. -/
theorem lookup_mapSet_self {α : Type} (m : List (String × α)) (k : String) (v : α) :
    (mapSet m k v).lookup k = some v := by
  induction m with
  | nil => simp [mapSet, List.lookup]
  | cons p t ih =>
      obtain ⟨k', v'⟩ := p
      by_cases h : k' = k
      · simp [mapSet, h, List.lookup]
      · have hkk : (k == k') = false := by simp [Ne.symm h]
        simp [mapSet, h, List.lookup, hkk, ih]

/-- Cache reads ignore the known-insights set. -/
theorem getCachedData_requestedInsights (st : PHState) (l : List String) (now : Nat)
    (insightId : String) :
    getCachedData { st with requestedInsights := l } now insightId =
      getCachedData st now insightId := rfl

/-- Every URL built by `buildInsightUrl` starts with `https://`. -/
theorem startsWith_buildInsightUrl (cfg : ConfigState) (insightId mode : String) :
    startsWithArd (buildInsightUrl cfg insightId mode) "https://" = true := by
  have h : (buildInsightUrl cfg insightId mode).toList =
      "https://".toList ++
        ((cfg.region ++ ".posthog.com/api/projects/" ++ toString cfg.teamId ++
          "/insights/?refresh=" ++ mode ++ "&short_id=" ++ insightId ++
          "&personal_api_key=" ++ cfg.apiKey).toList) := by
    simp only [buildInsightUrl, buildBaseUrl, String.toList, String.data_append,
      List.append_assoc]
  simp only [startsWithArd, h, isPrefixOf_append_self]

/-- Insight URLs always parse (they carry the `https://` scheme). -/
theorem parseUrl_buildInsightUrl (cfg : ConfigState) (insightId mode : String) :
    parseUrl (buildInsightUrl cfg insightId mode) =
      some ((parseHostPortPath (dropArd (buildInsightUrl cfg insightId mode) 8) 443).1,
            (parseHostPortPath (dropArd (buildInsightUrl cfg insightId mode) 8) 443).2.1,
            (parseHostPortPath (dropArd (buildInsightUrl cfg insightId mode) 8) 443).2.2,
            true) := by
  simp [parseUrl, startsWith_buildInsightUrl]

/-- Generated request tokens are never the empty string. -/
theorem generateRequestId_ne_empty (n : Nat) : generateRequestId n ≠ "" := by
  intro h
  have h2 : (generateRequestId n).length = 0 := by rw [h]; rfl
  rw [generateRequestId, String.length_append] at h2
  have h3 : ("req_" : String).length = 4 := rfl
  omega

/-- `retryRequest` in its retry branch: counter bumped, session reset to
`IDLE`, backoff delay attached. -/
theorem retryRequest_retried (now : Nat) (req : ActiveRequest) (error : String)
    (h : req.retryCount + 1 ≤ req.config.maxRetries) :
    retryRequest now req error =
      .retried (min (1000 * 2 ^ (req.retryCount + 1 - 1)) 8000)
        { req with
            retryCount := req.retryCount + 1
            state := .IDLE
            responseHeaders := "", responseBody := ""
            statusCode := 0, contentLength := 0, receivedBytes := 0
            headersParsed := false
            startTime := now, lastActivity := now } := by
  simp [retryRequest, h]

/-- `retryRequest` in its exhaustion branch: terminal failure. -/
theorem retryRequest_failed (now : Nat) (req : ActiveRequest) (error : String)
    (h : ¬req.retryCount + 1 ≤ req.config.maxRetries) :
    retryRequest now req error =
      .failed ("Max retries exceeded: " ++ error)
        { req with retryCount := req.retryCount + 1, state := .ERROR } := by
  simp [retryRequest, h]

/-! ### Claim theorems -/

/-- C10: a successful fetch with a zero-length body is silently dropped —
the cache is untouched and no data-available notification is published —
while a state-changed("success") notification is still emitted. -/
theorem c10_empty_body_dropped (st : PHState) (now : Nat) (insightId : String) :
    handleInsightSuccess st now insightId "" 200 =
      (st, [.publishEvent ⟨.INSIGHT_NETWORK_STATE_CHANGED, insightId, "success"⟩]) := by
  rfl

/-- C1: evaluation at the failing input.  A successful (HTTP 200)
cache-preferring response whose body is the plain JSON `{"result":null}`
matches the legacy blocking-path markers (`fetchInsight`) but NOT the
markers `handleInsightSuccess` actually searches for (they contain literal
backslashes), so no follow-up force-recompute fetch is issued and the
empty-result payload IS cached and delivered as a data-available
notification — contradicting the claim. -/
theorem c1_escalation_marker_code_bug :
    syncEmptyResultMarkers jsonNullBody = true ∧
    asyncEmptyResultMarkers jsonNullBody = false ∧
    handleInsightSuccess phEx 1000 "abc123" jsonNullBody 200 =
      ({ requestedInsights := []
         insightCache := [("abc123", jsonNullBody)]
         cacheTimestamps := [("abc123", 1000)] },
       [.publishEvent ⟨.INSIGHT_DATA_RECEIVED, "abc123", jsonNullBody⟩,
        .publishEvent ⟨.INSIGHT_NETWORK_STATE_CHANGED, "abc123", "success"⟩]) := by
  refine ⟨by decide, by decide, by decide⟩

/-- C3 counterexample: a fetch attempt made while the system is not fully
ready is NOT silent — it publishes an error notification and a
state-changed("error") notification. -/
theorem c3_silent_skip_counterexample :
    (makeAsyncInsightRequest cfgEx envNotReady 0 phEx clientEx "abc123" false).2.2 =
      [⟨.INSIGHT_DATA_ERROR, "abc123", "System not ready or WiFi disconnected"⟩,
       ⟨.INSIGHT_NETWORK_STATE_CHANGED, "abc123", "error"⟩] ∧
    (makeAsyncInsightRequest cfgEx envNotReady 0 phEx clientEx "abc123" false).2.2 ≠ [] := by
  refine ⟨by decide, by decide⟩

/-- C3 amended: a fetch attempt (initial or refresh — both funnel through
`makeAsyncInsightRequest`) made while the readiness precondition fails does
not proceed — the cache state and the HTTP client state are unchanged and
nothing is queued — but it is not silent: exactly one error notification
and one state-changed("error") notification are published. -/
theorem c3_not_ready_amended (cfg : ConfigState) (env : SysEnv) (now : Nat) (st : PHState)
    (client : ClientState) (insightId : String) (forceRefresh : Bool)
    (h : isReady cfg env = false ∨ env.wifiConnected = false) :
    makeAsyncInsightRequest cfg env now st client insightId forceRefresh =
      (st, client,
       [⟨.INSIGHT_DATA_ERROR, insightId, "System not ready or WiFi disconnected"⟩,
        ⟨.INSIGHT_NETWORK_STATE_CHANGED, insightId, "error"⟩]) := by
  rcases h with h | h <;> simp [makeAsyncInsightRequest, handleInsightError, h]

/-- C3 witness: the amended behaviour at a concrete not-ready input. -/
theorem c3_not_ready_amended_witness :
    (isReady cfgEx envNotReady = false ∨ envNotReady.wifiConnected = false) ∧
    makeAsyncInsightRequest cfgEx envNotReady 3 phEx clientEx "abc123" true =
      (phEx, clientEx,
       [⟨.INSIGHT_DATA_ERROR, "abc123", "System not ready or WiFi disconnected"⟩,
        ⟨.INSIGHT_NETWORK_STATE_CHANGED, "abc123", "error"⟩]) :=
  ⟨Or.inl (by decide),
   c3_not_ready_amended cfgEx envNotReady 3 phEx clientEx "abc123" true (Or.inl (by decide))⟩

/-- C5 counterexample: serving valid cached data (a cache read, no fetch
completion anywhere) through `requestInsightData` re-caches the payload and
refreshes its timestamp from 0 to the current time — contradicting "the
timestamp is never updated on a cache read". -/
theorem c5_timestamp_counterexample :
    getCachedData stCacheEx 10000 "abc123" = "cached-payload" ∧
    stCacheEx.cacheTimestamps.lookup "abc123" = some 0 ∧
    (requestInsightData stCacheEx 10000 "abc123" false).1.cacheTimestamps.lookup "abc123" =
      some 10000 ∧
    (10000 : Nat) ≠ 0 := by
  refine ⟨by decide, by decide, by decide, by decide⟩

/-- C5 amended: the timestamp is updated on every successful fetch
completion AND on cache-hit reads (which re-publish, and thereby re-cache,
the cached payload); on any fetch failure no cache mutation occurs — the
cached payload and its timestamp are exactly what they were before. -/
theorem c5_cache_frame_amended :
    (∀ (st : PHState) (insightId error : String) (sc : Int),
        (handleInsightError st insightId error sc).1 = st) ∧
    (∀ (st : PHState) (now : Nat) (insightId data : String),
        asyncEmptyResultMarkers data = false → data.length ≠ 0 →
        (handleInsightSuccess st now insightId data 200).1.cacheTimestamps.lookup insightId =
            some now ∧
        (handleInsightSuccess st now insightId data 200).1.insightCache.lookup insightId =
            some data) ∧
    (∀ (st : PHState) (now : Nat) (insightId : String),
        getCachedData st now insightId ≠ "" →
        (requestInsightData st now insightId false).1.cacheTimestamps.lookup insightId =
            some now ∧
        (requestInsightData st now insightId false).1.insightCache.lookup insightId =
            some (getCachedData st now insightId)) := by
  refine ⟨fun st insightId error sc => rfl, ?_, ?_⟩
  · intro st now insightId data hm hlen
    simp [handleInsightSuccess, hm, publishInsightDataEvent, hlen, cacheInsightData,
      lookup_mapSet_self]
  · intro st now insightId h
    have hlen : (getCachedData st now insightId).length ≠ 0 := by
      intro h0
      exact h ((string_length_eq_zero _).mp h0)
    simp [requestInsightData, publishInsightDataEvent, getCachedData_requestedInsights,
      hlen, cacheInsightData, lookup_mapSet_self]

/-- C5 witness: the amended behaviour at concrete inputs — an error leaves
the example cache untouched, and a cache-hit read at time 10000 refreshes
the timestamp while keeping the payload. -/
theorem c5_cache_frame_amended_witness :
    (handleInsightError stCacheEx "abc123" "HTTP 500" 500).1 = stCacheEx ∧
    (getCachedData stCacheEx 10000 "abc123" ≠ "" ∧
      (requestInsightData stCacheEx 10000 "abc123" false).1.cacheTimestamps.lookup "abc123" =
        some 10000 ∧
      (requestInsightData stCacheEx 10000 "abc123" false).1.insightCache.lookup "abc123" =
        some (getCachedData stCacheEx 10000 "abc123")) :=
  ⟨c5_cache_frame_amended.1 stCacheEx "abc123" "HTTP 500" 500,
   by decide,
   c5_cache_frame_amended.2.2 stCacheEx 10000 "abc123" (by decide)⟩

/-- C7: the backoff delay used by `retryRequest` for retry attempt `n`
(1-indexed, i.e. the incremented retry counter) is `1000 * 2^(n-1)` capped
at 8000 ms — the same schedule as the orchestrator's
`calculateRetryDelay` — the delay accompanies the reset-to-IDLE re-queue
of the attempt, successive delays are non-decreasing, and every delay is
at most the 8-second ceiling. -/
theorem c7_backoff_schedule :
    (∀ (now : Nat) (req : ActiveRequest) (error : String) (d : Nat) (r : ActiveRequest),
        retryRequest now req error = .retried d r →
        d = calculateRetryDelay (req.retryCount + 1) ∧
        d = min (RETRY_BASE_DELAY * 2 ^ (req.retryCount + 1 - 1)) MAX_RETRY_DELAY ∧
        r.retryCount = req.retryCount + 1 ∧ r.state = .IDLE) ∧
    (∀ m n : Nat, m ≤ n → calculateRetryDelay m ≤ calculateRetryDelay n) ∧
    (∀ n : Nat, calculateRetryDelay n ≤ MAX_RETRY_DELAY) := by
  refine ⟨?_, ?_, ?_⟩
  · intro now req error d r h
    rw [retryRequest] at h
    split at h
    · injection h with h1 h2
      subst h1
      subst h2
      refine ⟨by simp [calculateRetryDelay, RETRY_BASE_DELAY, MAX_RETRY_DELAY], rfl, rfl, rfl⟩
    · exact absurd h (by simp)
  · intro m n hmn
    unfold calculateRetryDelay
    exact min_le_min
      (Nat.mul_le_mul_left _ (Nat.pow_le_pow_right (by norm_num) (Nat.sub_le_sub_right hmn 1)))
      (le_refl _)
  · intro n
    exact min_le_right _ _

/-- C7 witness: the schedule at concrete inputs — the first retry of a
fresh request is re-queued after exactly 1000 ms, and delays 1 and 2 are
ordered. -/
theorem c7_backoff_schedule_witness :
    (retryRequest 99 reqRetry0 "Connection failed" = .retried 1000 reqRetry0After) ∧
    (1000 = calculateRetryDelay (reqRetry0.retryCount + 1) ∧
     1000 = min (RETRY_BASE_DELAY * 2 ^ (reqRetry0.retryCount + 1 - 1)) MAX_RETRY_DELAY ∧
     reqRetry0After.retryCount = reqRetry0.retryCount + 1 ∧
     reqRetry0After.state = .IDLE) ∧
    ((1 : Nat) ≤ 2 ∧ calculateRetryDelay 1 ≤ calculateRetryDelay 2) :=
  ⟨by decide,
   c7_backoff_schedule.1 99 reqRetry0 "Connection failed" 1000 reqRetry0After (by decide),
   by decide, c7_backoff_schedule.2.1 1 2 (by decide)⟩

/-- C4: the retry counter only increases (every `retryRequest` outcome
carries counter + 1), and an always-failing request performs exactly
`maxRetries + 1` attempts before exactly one terminal error callback
fires.  The fuel argument is a structural bound only; any fuel beyond the
remaining retry budget yields the same result. -/
theorem c4_retry_bound :
    (∀ (now : Nat) (req : ActiveRequest) (error : String),
        (retryRequest now req error).request.retryCount = req.retryCount + 1) ∧
    (∀ (fuel now : Nat) (req : ActiveRequest) (error : String),
        req.retryCount ≤ req.config.maxRetries →
        req.config.maxRetries - req.retryCount < fuel →
        alwaysFailRun fuel now req error = (req.config.maxRetries + 1 - req.retryCount, 1)) := by
  constructor
  · intro now req error
    by_cases h : req.retryCount + 1 ≤ req.config.maxRetries
    · rw [retryRequest_retried now req error h]
      rfl
    · rw [retryRequest_failed now req error h]
      rfl
  · intro fuel
    induction fuel with
    | zero =>
        intro now req error h1 h2
        exact absurd h2 (Nat.not_lt_zero _)
    | succ fuel ih =>
        intro now req error h1 h2
        by_cases hle : req.retryCount + 1 ≤ req.config.maxRetries
        · have hB : req.config.maxRetries - (req.retryCount + 1) < fuel := by omega
          simp only [alwaysFailRun, retryRequest_retried now req error hle]
          rw [ih now _ error hle hB]
          show (req.config.maxRetries + 1 - (req.retryCount + 1) + 1, 1) =
            (req.config.maxRetries + 1 - req.retryCount, 1)
          have h3 : req.config.maxRetries + 1 - (req.retryCount + 1) + 1 =
              req.config.maxRetries + 1 - req.retryCount := by omega
          rw [h3]
        · have hrc : req.retryCount = req.config.maxRetries := by omega
          simp only [alwaysFailRun, retryRequest_failed now req error hle]
          simp [hrc]

/-- C4 witness: with `maxRetries = 3` (and counter at 0) the always-failing
run performs exactly 4 attempts and fires exactly one error callback. -/
theorem c4_retry_bound_witness :
    reqRetry0.retryCount ≤ reqRetry0.config.maxRetries ∧
    reqRetry0.config.maxRetries - reqRetry0.retryCount < 4 ∧
    alwaysFailRun 4 0 reqRetry0 "Connection failed" = (4, 1) :=
  ⟨by decide, by decide,
   by
    have h := c4_retry_bound.2 4 0 reqRetry0 "Connection failed" (by decide) (by decide)
    simpa using h⟩

/-- C6: when valid cached data exists and `forceRefresh` is false, the
engine emits the data-available notification with the cached payload first
and then issues the background fetch with `forceRefresh = false`, whose
query mode is `force_cache` — never the force-recompute mode `blocking`. -/
theorem c6_cache_hit_flow (st : PHState) (now : Nat) (insightId : String)
    (h : getCachedData st now insightId ≠ "") :
    (requestInsightData st now insightId false).2 =
      [.publishEvent ⟨.INSIGHT_DATA_RECEIVED, insightId, getCachedData st now insightId⟩,
       .asyncFetch insightId false] ∧
    refreshMode false = "force_cache" ∧
    refreshMode false ≠ refreshMode true := by
  have hlen : (getCachedData st now insightId).length ≠ 0 := by
    intro h0
    exact h ((string_length_eq_zero _).mp h0)
  refine ⟨?_, by decide, by decide⟩
  simp [requestInsightData, publishInsightDataEvent, getCachedData_requestedInsights, hlen]

/-- C6 witness: the cache-hit flow at a concrete state with a 10-second-old
entry (staleness window 300 s). -/
theorem c6_cache_hit_flow_witness :
    getCachedData stCacheEx 10000 "abc123" ≠ "" ∧
    ((requestInsightData stCacheEx 10000 "abc123" false).2 =
      [.publishEvent ⟨.INSIGHT_DATA_RECEIVED, "abc123", getCachedData stCacheEx 10000 "abc123"⟩,
       .asyncFetch "abc123" false] ∧
     refreshMode false = "force_cache" ∧
     refreshMode false ≠ refreshMode true) :=
  ⟨by decide, c6_cache_hit_flow stCacheEx 10000 "abc123" (by decide)⟩

/-- C9: `request` fails fast exactly on URLs carrying neither scheme —
returning the empty token and registering nothing (only the token counter
advances) — and otherwise immediately returns the fresh non-empty token
and registers the session in `IDLE`; no transport action is taken either
way (connection setup happens only later, inside `process`). -/
theorem c9_submit_fail_fast (now : Nat) (st : ClientState) (cfg : RequestConfig) :
    (parseUrl cfg.url = none ↔
      (startsWithArd cfg.url "https://" = false ∧ startsWithArd cfg.url "http://" = false)) ∧
    (parseUrl cfg.url = none →
      clientRequest now st cfg = ("", { st with nextRequestId := st.nextRequestId + 1 })) ∧
    (parseUrl cfg.url ≠ none →
      (clientRequest now st cfg).1 = generateRequestId st.nextRequestId ∧
      (clientRequest now st cfg).1 ≠ "" ∧
      (clientRequest now st cfg).2.nextRequestId = st.nextRequestId + 1 ∧
      ∃ req : ActiveRequest,
        (clientRequest now st cfg).2.activeRequests =
          mapSet st.activeRequests (generateRequestId st.nextRequestId) req ∧
        req.state = .IDLE ∧ req.config.url = cfg.url) := by
  refine ⟨?_, ?_, ?_⟩
  · rw [parseUrl]
    by_cases h1 : startsWithArd cfg.url "https://" = true
    · simp [h1]
    · by_cases h2 : startsWithArd cfg.url "http://" = true
      · simp [h1, h2]
      · simp [h1, h2]
  · intro h
    simp [clientRequest, h]
  · intro h
    obtain ⟨v, hv⟩ := Option.ne_none_iff_exists'.mp h
    obtain ⟨vh, vp, vpa, vssl⟩ := v
    have htok : (clientRequest now st cfg).1 = generateRequestId st.nextRequestId := by
      simp [clientRequest, hv]
    refine ⟨htok, ?_, by simp [clientRequest, hv], ?_⟩
    · rw [htok]
      exact generateRequestId_ne_empty _
    · refine ⟨{ requestId := generateRequestId st.nextRequestId
                config := { cfg with useSSL := vssl }
                state := .IDLE
                host := vh, port := vp, path := vpa
                startTime := now, lastActivity := now }, ?_, rfl, rfl⟩
      simp [clientRequest, hv]

/-- C9 witness: a schemeless URL is rejected with no registration; a
well-formed URL is registered immediately under token `req_1`. -/
theorem c9_submit_fail_fast_witness :
    (parseUrl "ftp://example.com/x" = none ∧
     clientRequest 0 clientEx { url := "ftp://example.com/x" } = ("", { clientEx with nextRequestId := 2 })) ∧
    (parseUrl "https://example.com/x" ≠ none ∧
     (clientRequest 0 clientEx { url := "https://example.com/x" }).1 = generateRequestId 1 ∧
     (clientRequest 0 clientEx { url := "https://example.com/x" }).1 ≠ "") :=
  ⟨⟨by decide,
    (c9_submit_fail_fast 0 clientEx { url := "ftp://example.com/x" }).2.1 (by decide)⟩,
   ⟨by decide,
    ((c9_submit_fail_fast 0 clientEx { url := "https://example.com/x" }).2.2 (by decide)).1,
    ((c9_submit_fail_fast 0 clientEx { url := "https://example.com/x" }).2.2 (by decide)).2.1⟩⟩

/-- C2 counterexample: two back-to-back insight requests for the same id
in a ready environment leave TWO active Transport Sessions for that id —
no cancellation or de-duplication happens in `AsyncHTTPClient::request` or
`makeAsyncInsightRequest`. -/
theorem c2_dedup_counterexample :
    ((makeAsyncInsightRequest cfgEx envReady 0 phEx
        (makeAsyncInsightRequest cfgEx envReady 0 phEx clientEx "abc123" false).2.1
        "abc123" false).2.1.activeRequests.length = 2) ∧
    ¬((makeAsyncInsightRequest cfgEx envReady 0 phEx
        (makeAsyncInsightRequest cfgEx envReady 0 phEx clientEx "abc123" false).2.1
        "abc123" false).2.1.activeRequests.length = 1) ∧
    ((makeAsyncInsightRequest cfgEx envReady 0 phEx
        (makeAsyncInsightRequest cfgEx envReady 0 phEx clientEx "abc123" false).2.1
        "abc123" false).2.1.activeRequests.map
          (fun p => p.2.config.callbackInsightId) = [some "abc123", some "abc123"]) := by
  refine ⟨by decide, by decide, by decide⟩

/-- C2 amended: each submission registers a fresh session under its own
new token without cancelling the existing one, so two back-to-back
`requestInsight(id)` calls for the same id leave exactly TWO active
Transport Sessions for that id (one per token). -/
theorem c2_two_sessions_amended (cfg : ConfigState) (env : SysEnv) (now : Nat)
    (st : PHState) (insightId : String)
    (h1 : isReady cfg env = true) (h2 : env.wifiConnected = true) :
    ((makeAsyncInsightRequest cfg env now st
        (makeAsyncInsightRequest cfg env now st clientEx insightId false).2.1
        insightId false).2.1.activeRequests.map Prod.fst =
      [generateRequestId 1, generateRequestId 2]) ∧
    generateRequestId 1 ≠ generateRequestId 2 := by
  have hv := parseUrl_buildInsightUrl cfg insightId (refreshMode false)
  have hne : generateRequestId 1 ≠ generateRequestId 2 := by decide
  refine ⟨?_, hne⟩
  simp [makeAsyncInsightRequest, h1, h2, clientRequest, hv, clientEx, mapSet,
    generateRequestId_ne_empty, hne, string_length_eq_zero]

/-- C2 witness: the amended two-session outcome at a concrete ready
configuration. -/
theorem c2_two_sessions_amended_witness :
    isReady cfgEx envReady = true ∧ envReady.wifiConnected = true ∧
    (((makeAsyncInsightRequest cfgEx envReady 0 phEx
        (makeAsyncInsightRequest cfgEx envReady 0 phEx clientEx "abc123" false).2.1
        "abc123" false).2.1.activeRequests.map Prod.fst =
      [generateRequestId 1, generateRequestId 2]) ∧
     generateRequestId 1 ≠ generateRequestId 2) :=
  ⟨by decide, by decide,
   c2_two_sessions_amended cfgEx envReady 0 phEx "abc123" (by decide) (by decide)⟩

/-- C8 counterexample: a response whose headers carry `Content-Length: 0`.
The header is present (known) and parses to 0, the received byte count
(0) has reached that length, yet the poll does not complete the request —
it waits for the peer to close — contradicting "completes exactly when the
received byte count reaches that length". -/
theorem c8_content_length_zero_counterexample :
    strIndexOf (receiveResponse clZeroSession true "\n" true).1.responseHeaders
        "Content-Length:" ≥ 0 ∧
    (receiveResponse clZeroSession true "\n" true).1.headersParsed = true ∧
    (receiveResponse clZeroSession true "\n" true).1.contentLength = 0 ∧
    (receiveResponse clZeroSession true "\n" true).1.receivedBytes ≥
      (receiveResponse clZeroSession true "\n" true).1.contentLength ∧
    (receiveResponse clZeroSession true "\n" true).2 ≠ .completedOk := by
  refine ⟨by decide, by decide, by decide, by decide, by decide⟩

/-- C8 amended: completion is governed by the parsed `contentLength`
field: when it is positive, a poll completes exactly when the received
byte count has reached it; when it is 0 (`Content-Length` absent, zero, or
unparseable), completion happens exactly when the peer has closed the
connection after the headers were parsed; and a peer close before the
headers are fully parsed is an attempt failure, never a completion. -/
theorem c8_completion_amended (req : ActiveRequest) (newData : String) (connectedAfter : Bool) :
    (req.headersParsed = false →
      receiveResponse req false newData connectedAfter =
        (req, .attemptFailed "Client disconnected during receive")) ∧
    (req.headersParsed = true →
      receiveResponse req false newData connectedAfter = (req, .completedOk)) ∧
    (newData.length ≠ 0 →
      receiveResponse req true newData connectedAfter =
        (if (receiveAccumulate req newData).headersParsed then
          (if bodyComplete (receiveAccumulate req newData).contentLength
              (receiveAccumulate req newData).receivedBytes connectedAfter then
            (receiveAccumulate req newData, .completedOk)
          else (receiveAccumulate req newData, .noEvent))
        else (receiveAccumulate req newData, .noEvent))) ∧
    (∀ cl rb : Nat, 0 < cl → (bodyComplete cl rb connectedAfter = true ↔ cl ≤ rb)) ∧
    (∀ rb : Nat, bodyComplete 0 rb connectedAfter = !connectedAfter) := by
  refine ⟨?_, ?_, ?_, ?_, ?_⟩
  · intro h
    simp [receiveResponse, h]
  · intro h
    simp [receiveResponse, h]
  · intro h
    simp only [receiveResponse, Bool.not_true, Bool.false_eq_true, if_false, if_neg h]
  · intro cl rb hcl
    simp [bodyComplete, hcl, ge_iff_le]
  · intro rb
    simp [bodyComplete]

/-- C8 witness: the amended policy at concrete inputs — a close before the
headers are parsed is an attempt failure. -/
theorem c8_completion_amended_witness :
    preHdrSession.headersParsed = false ∧
    receiveResponse preHdrSession false "" true =
      (preHdrSession, .attemptFailed "Client disconnected during receive") :=
  ⟨rfl, (c8_completion_amended preHdrSession "" true).1 rfl⟩

end DeskHog
